import Mathlib

/-!
Verification of the provider-adapter protocol of this repository: the
Featherless and Ollama LLM provider adapters
(`src/app/lib/modules/llm/providers/featherless.ts`,
`src/app/lib/modules/llm/providers/ollama.ts`) and the model-selection
logic of the chat orchestrator (`ChatImpl`).

The adapters' effectful methods are embedded as pure functions of their
inputs plus the outcome of the single network fetch they perform.  JSON
bodies are represented by an inductive `Json` value (the result of a
successful `JSON.parse`); a body that fails to parse is represented by
`none`.  JavaScript property access, its `TypeError` on `undefined`/`null`
bases, and template-literal stringification are modelled explicitly, so
the duck-typed response handling of the adapters is followed faithfully.
-/

set_option autoImplicit false

/-- A parsed JSON value, as produced by a successful `JSON.parse`. -/
inductive Json where
  | null
  | bool (b : Bool)
  | num (n : Int)
  | str (s : String)
  | arr (elems : List Json)
  | obj (fields : List (String × Json))

/-- A JavaScript value that is either a `Json` value or `undefined`
(`none`). -/
abbrev JsValue := Option Json

/-- Errors a modelled adapter call can raise: the JavaScript exceptions
reachable in this code. -/
inductive JsError where
  | typeError
  | parseError
  | netError
  | configError (msg : String)
deriving DecidableEq

/-- First-match association lookup, used for records (`apiKeys`,
`serverEnv`) and for parsed JSON objects.  Claim-relevant objects have
pairwise distinct keys, for which first-match and the last-wins rule of
`JSON.parse` agree. -/
def assocLookup {α : Type} : List (String × α) → String → Option α
  | [], _ => none
  | (k2, v) :: rest, k => if k2 == k then some v else assocLookup rest k

/-- JavaScript property access `base[key]`: a `TypeError` when the base is
`undefined` or `null`, the field (or `undefined`) on an object, and
`undefined` on any other primitive or array (none of the accessed keys is
a built-in property). -/
def jsGet : JsValue → String → Except JsError JsValue
  | none, _ => .error .typeError
  | some .null, _ => .error .typeError
  | some (.obj fields), k => .ok (assocLookup fields k)
  | some _, _ => .ok none

mutual

/-- String conversion of a JSON value as performed by a JavaScript
template literal: strings verbatim, numbers and booleans printed, `null`
printed as "null", arrays joined by commas with `null` elements empty
(`Array.prototype.toString`), plain objects as "[object Object]". -/
def jsToStringCore : Json → String
  | .null => "null"
  | .bool b => if b then "true" else "false"
  | .num n => toString n
  | .str s => s
  | .arr xs => jsArrayToString xs
  | .obj _ => "[object Object]"

/-- Comma-joined element rendering of `Array.prototype.toString`. -/
def jsArrayToString : List Json → String
  | [] => ""
  | [.null] => ""
  | [x] => jsToStringCore x
  | .null :: xs => "," ++ jsArrayToString xs
  | x :: xs => jsToStringCore x ++ "," ++ jsArrayToString xs

end

/-- Template-literal stringification of a JavaScript value; `undefined`
prints as "undefined". -/
def jsToString : JsValue → String
  | none => "undefined"
  | some j => jsToStringCore j

/-- Template-literal stringification of a string-or-undefined value. -/
def jsStrOpt : Option String → String
  | none => "undefined"
  | some s => s

/-- JavaScript strict equality `===` restricted to the comparisons this
code performs: equality of primitives; two object or array references
obtained from different sources compare unequal. -/
def jsEq : JsValue → JsValue → Bool
  | none, none => true
  | some .null, some .null => true
  | some (.bool a), some (.bool b) => a == b
  | some (.num a), some (.num b) => a == b
  | some (.str a), some (.str b) => a == b
  | _, _ => false

/-- JavaScript `Array.prototype.map` with a callback that may throw: the
first exception aborts the whole map and propagates. -/
def jsArrayMap {α β : Type} (f : α → Except JsError β) : List α → Except JsError (List β)
  | [] => .ok []
  | x :: xs =>
    match f x with
    | .error e => .error e
    | .ok y =>
      match jsArrayMap f xs with
      | .error e => .error e
      | .ok ys => .ok (y :: ys)

/-- Per-provider settings record (`IProviderSetting`): the fields this
code reads. -/
structure IProviderSetting where
  enabled : Option Bool
  baseUrl : Option String

/-- Static per-provider configuration record, fixed at adapter
construction.  `defaultBaseUrl` is the provider's hardcoded default base
URL (named `baseUrl` in the Featherless config and `defaultBaseUrl` in the
Ollama config). -/
structure ProviderConfig where
  baseUrlKey : Option String
  apiTokenKey : Option String
  defaultBaseUrl : Option String
  enabled : Option Bool

/-- Credentials resolved for one call. -/
structure ResolvedCredentials where
  baseUrl : Option String
  apiKey : Option String

/-- Modelled from the spec: the credential/endpoint resolver
`getProviderBaseUrlAndKey` of the shared `BaseProvider` class
(`base-provider.ts`, whose source is not part of this fragment).  Spec
precedence, highest first — base URL: per-call settings override, named
server-environment variable, provider's hardcoded default; API token:
per-call `apiKeys` entry for the provider, named server-environment
variable, and no hardcoded-default tier for secrets.  Pure function of its
inputs. -/
def getProviderBaseUrlAndKey (config : ProviderConfig) (providerName : String)
    (apiKeys : List (String × String)) (providerSettings : Option IProviderSetting)
    (serverEnv : List (String × String))
    (defaultBaseUrlKey : String) (defaultApiTokenKey : String) : ResolvedCredentials :=
  { baseUrl :=
      (providerSettings.bind IProviderSetting.baseUrl) <|>
        assocLookup serverEnv (config.baseUrlKey.getD defaultBaseUrlKey) <|>
          config.defaultBaseUrl
    apiKey :=
      assocLookup apiKeys providerName <|>
        assocLookup serverEnv (config.apiTokenKey.getD defaultApiTokenKey) }

/-- The `config` record of `FeatherlessProvider`. -/
def featherlessConfig : ProviderConfig :=
  { baseUrlKey := some "FEATHERLESS_API_BASE_URL"
    apiTokenKey := some "FEATHERLESS_API_KEY"
    defaultBaseUrl := some "https://api.featherless.ai/v1"
    enabled := none }

/-- The `config` record of `OllamaProvider`. -/
def ollamaConfig : ProviderConfig :=
  { baseUrlKey := some "OLLAMA_API_BASE_URL"
    apiTokenKey := none
    defaultBaseUrl := some "http://localhost:11434"
    enabled := some true }

/-- Normalized model descriptor (`ModelInfo`).  `name`, `label` and
`maxTokenAllowed` hold whatever JavaScript value the mapping step produced
(the TypeScript annotations are not checked at runtime); `provider` is
always assigned a string literal by this code. -/
structure ModelInfo where
  name : JsValue
  label : JsValue
  provider : String
  maxTokenAllowed : JsValue

/-- The outcome of the single `fetch` an adapter performs: a rejected
promise (network failure, or abort by a timeout signal), or a response
with its success flag (`response.ok`) and the parse outcome of its body
(`none` when the body is not valid JSON, so that `JSON.parse` /
`response.json()` throws). -/
inductive FetchResult where
  | netError
  | response (ok : Bool) (body : Option Json)

/-- The HTTP request an adapter issues for its model listing: target URL,
the delay of the abort-signal timer armed for it (if any), and its
headers. -/
structure FetchRequest where
  url : String
  timeoutMs : Option Nat
  headers : List (String × String)

/-- The `staticModels` list of `OllamaProvider` (line 9 of `ollama.ts`). -/
def ollamaStaticModels : List ModelInfo := []

/-- The `staticModels` list of `FeatherlessProvider`. -/
def featherlessStaticModels : List ModelInfo :=
  [{ name := some (.str "meta-llama/Meta-Llama-3.1-8B-Instruct")
     label := some (.str "LLaMA-3 8B Instruct")
     provider := "Featherless"
     maxTokenAllowed := some (.num 4096) },
   { name := some (.str "mistralai/Mistral-7B")
     label := some (.str "Mistral 7B")
     provider := "Featherless"
     maxTokenAllowed := some (.num 4096) }]

/-- The resolver call both Featherless methods make:
`getProviderBaseUrlAndKey` with the Featherless config, key names
`FEATHERLESS_API_BASE_URL` / `FEATHERLESS_API_KEY`, and the given server
environment. -/
def featherlessCreds (apiKeys : List (String × String)) (settings : Option IProviderSetting)
    (serverEnv : List (String × String)) : ResolvedCredentials :=
  getProviderBaseUrlAndKey featherlessConfig "Featherless" apiKeys settings serverEnv
    "FEATHERLESS_API_BASE_URL" "FEATHERLESS_API_KEY"

/-- The mapping of one Featherless model record (featherless.ts lines
115-120): `name` from `model.id`, `label` the template
`model.details.name (model.details.size)`, provider stamped
"Featherless", `maxTokenAllowed` from `model.details.context_length`.
Accessing a field of a missing `details` (or of a `null` array element)
throws a `TypeError`, which the caller's `try` block turns into `[]`. -/
def featherlessMapModel (m : Json) : Except JsError ModelInfo :=
  match jsGet (some m) "id" with
  | .error e => .error e
  | .ok idv =>
    match jsGet (some m) "details" with
    | .error e => .error e
    | .ok details =>
      match jsGet details "name" with
      | .error e => .error e
      | .ok dname =>
        match jsGet details "size" with
        | .error e => .error e
        | .ok dsize =>
          match jsGet details "context_length" with
          | .error e => .error e
          | .ok clen =>
            .ok { name := idv
                  label := some (.str (jsToString dname ++ " (" ++ jsToString dsize ++ ")"))
                  provider := "Featherless"
                  maxTokenAllowed := clen }

/-- Validation and mapping of a parsed Featherless listing body
(featherless.ts lines 109-124): unless `data.models` is an array, the
result is `[]`; a `TypeError` thrown while mapping a record is caught by
the enclosing `try` block and also yields `[]`. -/
def featherlessParseListing (data : Json) : List ModelInfo :=
  match jsGet (some data) "models" with
  | .error _ => []
  | .ok (some (.arr ms)) =>
    match jsArrayMap featherlessMapModel ms with
    | .error _ => []
    | .ok infos => infos
  | .ok _ => []

/-- `FeatherlessProvider.getDynamicModels` as a function of its inputs and
the fetch outcome: missing credentials, a rejected fetch, a non-success
status, an unparseable body, a body without a `models` array, and a
`TypeError` while mapping records all yield `.ok []`; only a fully valid
response yields the mapped list.  The surrounding `try`/`catch` returns
`[]` for every exception, so no error escapes. -/
def featherlessGetDynamicModels (apiKeys : List (String × String))
    (settings : Option IProviderSetting) (serverEnv : List (String × String))
    (fetch : FetchResult) : Except JsError (List ModelInfo) :=
  match (featherlessCreds apiKeys settings serverEnv).baseUrl,
        (featherlessCreds apiKeys settings serverEnv).apiKey with
  | some _, some _ =>
    match fetch with
    | .netError => .ok []
    | .response false _ => .ok []
    | .response true none => .ok []
    | .response true (some data) => .ok (featherlessParseListing data)
  | _, _ => .ok []

/-- The model-listing request Featherless issues when credentials resolve
(none is issued otherwise): GET `baseUrl ++ "/models"` with Accept and
Bearer headers, tied to an `AbortController` whose abort is scheduled
after 5000 ms. -/
def featherlessDynamicModelsRequest (apiKeys : List (String × String))
    (settings : Option IProviderSetting) (serverEnv : List (String × String)) :
    Option FetchRequest :=
  match (featherlessCreds apiKeys settings serverEnv).baseUrl,
        (featherlessCreds apiKeys settings serverEnv).apiKey with
  | some b, some k =>
    some { url := b ++ "/models"
           timeoutMs := some 5000
           headers := [("Accept", "application/json"), ("Authorization", "Bearer " ++ k)] }
  | _, _ => none

/-- Handle built by `getOpenAILikeModel(baseUrl, apiKey, model)` — an
external collaborator, recorded here as the data it is bound to. -/
structure OpenAILikeHandle where
  baseUrl : String
  apiKey : String
  modelId : String

/-- `FeatherlessProvider.getModelInstance`: resolves credentials and
throws a configuration `Error` when the base URL or the API key is
missing; otherwise returns the OpenAI-compatible handle bound to them. -/
def featherlessGetModelInstance (apiKeys : List (String × String))
    (settings : Option IProviderSetting) (serverEnv : List (String × String))
    (model : String) : Except JsError OpenAILikeHandle :=
  match (featherlessCreds apiKeys settings serverEnv).baseUrl,
        (featherlessCreds apiKeys settings serverEnv).apiKey with
  | some b, some k => .ok { baseUrl := b, apiKey := k, modelId := model }
  | _, _ => .error (.configError "No base URL or API key configured for Featherless")

/-- The resolver call `OllamaProvider.getDynamicModels` makes (ollama.ts
lines 18-24): Ollama config, key `OLLAMA_API_BASE_URL`, empty default
token key, and — hardcoded at the call site — an **empty** server
environment. -/
def ollamaCreds (apiKeys : List (String × String)) (settings : Option IProviderSetting) :
    ResolvedCredentials :=
  getProviderBaseUrlAndKey ollamaConfig "Ollama" apiKeys settings [] "OLLAMA_API_BASE_URL" ""

/-- The mapping of one Ollama model record (ollama.ts lines 29-34):
`name` and `label` both from `model.name`, provider stamped "Ollama",
`maxTokenAllowed` the constant 4096. -/
def ollamaMapModel (m : Json) : Except JsError ModelInfo :=
  match jsGet (some m) "name" with
  | .error e => .error e
  | .ok n => .ok { name := n, label := n, provider := "Ollama", maxTokenAllowed := some (.num 4096) }

/-- `OllamaProvider.getDynamicModels` as a function of its inputs and the
fetch outcome.  `ambientServerEnv` is the server environment available at
the call site under the adapter contract; this override neither declares
that parameter nor forwards it (the resolver receives `{}`, see
`ollamaCreds`).  The `catch` block logs and **rethrows**, so a rejected
fetch, an unparseable body (`response.json()` throws), a missing or
non-array `models` field, and a `TypeError` while mapping all propagate
to the caller; `response.ok` is never consulted. -/
def ollamaGetDynamicModels (apiKeys : List (String × String))
    (settings : Option IProviderSetting) (ambientServerEnv : List (String × String))
    (fetch : FetchResult) : Except JsError (List ModelInfo) :=
  match fetch with
  | .netError => .error .netError
  | .response _ none => .error .parseError
  | .response _ (some data) =>
    match jsGet (some data) "models" with
    | .error _ => .error .typeError
    | .ok (some (.arr ms)) => jsArrayMap ollamaMapModel ms
    | .ok _ => .error .typeError

/-- The model-listing request Ollama issues: GET `baseUrl ++ "/api/tags"`
with no headers and no abort signal or timeout.  As in
`ollamaGetDynamicModels`, the ambient server environment is not
consulted. -/
def ollamaDynamicModelsRequest (apiKeys : List (String × String))
    (settings : Option IProviderSetting) (ambientServerEnv : List (String × String)) :
    FetchRequest :=
  { url := jsStrOpt (ollamaCreds apiKeys settings).baseUrl ++ "/api/tags"
    timeoutMs := none
    headers := [] }

/-- Handle built by the `ollama` client factory: model id, the fixed
`numCtx` 4096, and the base URL patched to `baseUrl ++ "/api"`. -/
structure OllamaHandle where
  modelId : String
  numCtx : Nat
  baseURL : String

/-- The resolver call `OllamaProvider.getModelInstance` makes: unlike the
listing path it forwards its `serverEnv` argument. -/
def ollamaInstanceCreds (apiKeys : List (String × String))
    (settings : Option IProviderSetting) (serverEnv : List (String × String)) :
    ResolvedCredentials :=
  getProviderBaseUrlAndKey ollamaConfig "Ollama" apiKeys settings serverEnv
    "OLLAMA_API_BASE_URL" ""

/-- `OllamaProvider.getModelInstance`: resolves the base URL (the API key
is not even destructured), performs no check on the result, and always
returns a handle with `numCtx` 4096 and `baseURL` the template
`baseUrl + "/api"`. -/
def ollamaGetModelInstance (apiKeys : List (String × String))
    (settings : Option IProviderSetting) (serverEnv : List (String × String))
    (model : String) : Except JsError OllamaHandle :=
  .ok { modelId := model
        numCtx := 4096
        baseURL := jsStrOpt (ollamaInstanceCreds apiKeys settings serverEnv).baseUrl ++ "/api" }

/-- The model-selection state `ChatImpl` owns that the auto-select logic
touches: the `model` state variable and the `selectedModel` cookie. -/
structure ChatSelectionState where
  model : JsValue
  selectedModelCookie : Option String

/-- The state update of `ChatImpl.fetchModels` after a successful
`getModelList` (ollama.ts part 2, lines 204-217): if no fetched model has
`name === model` and `provider === provider.name`, the first fetched
model of the selected provider (if any) becomes the selection, and the
`selectedModel` cookie is set to it. -/
def fetchModelsUpdate (providerName : String) (models : List ModelInfo)
    (st : ChatSelectionState) : ChatSelectionState :=
  if models.any fun m => jsEq m.name st.model && m.provider == providerName then st
  else
    match models.find? fun m => m.provider == providerName with
    | some firstModel =>
      { model := firstModel.name, selectedModelCookie := some (jsToString firstModel.name) }
    | none => st

/-- C5: the Featherless listing response
`{"models":[{"id":"m1","details":{"name":"Model One","size":"7B","context_length":8192}}]}`
maps to exactly one `ModelInfo` with name "m1", label "Model One (7B)",
provider "Featherless" and `maxTokenAllowed` 8192. -/
theorem c5_featherless_round_trip :
    featherlessGetDynamicModels [("Featherless", "key")] none []
      (.response true (some (.obj [("models", .arr [.obj
        [("id", .str "m1"),
         ("details", .obj
           [("name", .str "Model One"), ("size", .str "7B"), ("context_length", .num 8192)])]])])))
    = .ok [{ name := some (.str "m1")
             label := some (.str "Model One (7B)")
             provider := "Featherless"
             maxTokenAllowed := some (.num 8192) }] := rfl

/-- C6: the Ollama listing response `{"models":[{"name":"llama2"}]}` maps
to exactly one `ModelInfo` with name "llama2", label "llama2", provider
"Ollama" and `maxTokenAllowed` 4096. -/
theorem c6_ollama_round_trip :
    ollamaGetDynamicModels [] none []
      (.response true (some (.obj [("models", .arr [.obj [("name", .str "llama2")]])])))
    = .ok [{ name := some (.str "llama2")
             label := some (.str "llama2")
             provider := "Ollama"
             maxTokenAllowed := some (.num 4096) }] := rfl

/-- C9: the Ollama adapter ignores the ambient server environment during
model listing — the credentials it uses are exactly the resolver's output
on an empty server environment, and both the issued request and the
listing result coincide for any two server environments (with apiKeys and
settings fixed). -/
theorem c9_ollama_ignores_server_env (apiKeys : List (String × String))
    (settings : Option IProviderSetting) (env1 env2 : List (String × String))
    (fetch : FetchResult) :
    ollamaCreds apiKeys settings =
      getProviderBaseUrlAndKey ollamaConfig "Ollama" apiKeys settings []
        "OLLAMA_API_BASE_URL" ""
  ∧ ollamaDynamicModelsRequest apiKeys settings env1 =
      ollamaDynamicModelsRequest apiKeys settings env2
  ∧ ollamaGetDynamicModels apiKeys settings env1 fetch =
      ollamaGetDynamicModels apiKeys settings env2 fetch :=
  ⟨rfl, rfl, rfl⟩

/-- C10: the Ollama adapter's `staticModels` is the empty sequence, so no
Ollama model is displayable before the first dynamic fetch completes. -/
theorem c10_ollama_static_models_empty :
    ollamaStaticModels = [] ∧ ∀ mi : ModelInfo, mi ∉ ollamaStaticModels :=
  ⟨rfl, by simp [ollamaStaticModels]⟩

/-- C1 counterexample: on a network failure — one of the listing-path
errors the claim covers — Ollama's `getDynamicModels` rethrows instead of
returning the empty sequence. -/
theorem c1_counterexample :
    ollamaGetDynamicModels [] none [] FetchResult.netError = .error .netError
  ∧ (Except.error JsError.netError : Except JsError (List ModelInfo)) ≠ .ok [] :=
  ⟨rfl, fun h => Except.noConfusion h⟩

/-- C2 counterexample: with no API key resolvable (empty apiKeys, no
settings, empty server environment), Ollama's `getModelInstance` does not
raise a configuration error — it returns a fully constructed handle bound
to the hardcoded default base URL. -/
theorem c2_counterexample :
    (ollamaInstanceCreds [] none []).apiKey = none
  ∧ ollamaGetModelInstance [] none [] "llama2" =
      .ok { modelId := "llama2", numCtx := 4096, baseURL := "http://localhost:11434/api" } :=
  ⟨rfl, rfl⟩

/-- C3 counterexample: Ollama's model-listing request carries no abort
signal or timeout at all, and a failed request makes `getDynamicModels`
rethrow rather than return the empty sequence. -/
theorem c3_counterexample :
    (ollamaDynamicModelsRequest [] none []).timeoutMs = none
  ∧ ollamaGetDynamicModels [] none [] FetchResult.netError = .error .netError :=
  ⟨rfl, rfl⟩

/-- C4 counterexample: a Featherless record whose `details` lacks
`context_length` maps to `maxTokenAllowed` `undefined`, not to the 4096
fallback the claim states. -/
theorem c4_counterexample :
    featherlessGetDynamicModels [("Featherless", "key")] none []
      (.response true (some (.obj [("models", .arr [.obj
        [("id", .str "m1"),
         ("details", .obj [("name", .str "Model One"), ("size", .str "7B")])]])])))
    = .ok [{ name := some (.str "m1")
             label := some (.str "Model One (7B)")
             provider := "Featherless"
             maxTokenAllowed := none }]
  ∧ (none : JsValue) ≠ some (.num 4096) :=
  ⟨rfl, fun h => Option.noConfusion h⟩

/-- Every element produced by a successful `jsArrayMap` satisfies any
property the callback's successes satisfy. -/
theorem jsArrayMap_forall {α β : Type} (f : α → Except JsError β) (P : β → Prop)
    (hf : ∀ a b, f a = .ok b → P b) :
    ∀ (xs : List α) (ys : List β), jsArrayMap f xs = .ok ys → ∀ y ∈ ys, P y := by
  intro xs
  induction xs with
  | nil =>
    intro ys h y hy
    cases h
    simp at hy
  | cons x rest ih =>
    intro ys h y hy
    unfold jsArrayMap at h
    split at h
    · exact Except.noConfusion h
    · rename_i y0 heq0
      split at h
      · exact Except.noConfusion h
      · rename_i ys0 heq1
        cases h
        rcases List.mem_cons.mp hy with hy2 | hy2
        · rw [hy2]; exact hf x y0 heq0
        · exact ih ys0 heq1 y hy2

/-- The Featherless record mapping stamps provider "Featherless" on every
record it maps successfully. -/
theorem featherlessMapModel_provider (m : Json) (mi : ModelInfo) :
    featherlessMapModel m = .ok mi → mi.provider = "Featherless" := by
  intro h
  unfold featherlessMapModel at h
  split at h
  · exact Except.noConfusion h
  · split at h
    · exact Except.noConfusion h
    · split at h
      · exact Except.noConfusion h
      · split at h
        · exact Except.noConfusion h
        · split at h
          · exact Except.noConfusion h
          · injection h with h2
            subst h2
            rfl

/-- The Ollama record mapping stamps provider "Ollama" on every record it
maps successfully. -/
theorem ollamaMapModel_provider (m : Json) (mi : ModelInfo) :
    ollamaMapModel m = .ok mi → mi.provider = "Ollama" := by
  intro h
  unfold ollamaMapModel at h
  split at h
  · exact Except.noConfusion h
  · injection h with h2
    subst h2
    rfl

/-- Every model a Featherless listing body yields carries provider
"Featherless". -/
theorem featherlessParseListing_provider (data : Json) :
    ∀ mi ∈ featherlessParseListing data, mi.provider = "Featherless" := by
  intro mi hmi
  unfold featherlessParseListing at hmi
  split at hmi
  · simp at hmi
  · split at hmi
    · simp at hmi
    · rename_i heq
      exact jsArrayMap_forall featherlessMapModel _ featherlessMapModel_provider _ _ heq mi hmi
  · simp at hmi

/-- C7: for every adapter, every input and every fetch outcome, each
`ModelInfo` in a successfully returned dynamic-model list has its
`provider` field equal to that adapter's name. -/
theorem c7_provider_stamped (apiKeys : List (String × String))
    (settings : Option IProviderSetting) (serverEnv : List (String × String))
    (fetch : FetchResult) (l : List ModelInfo) :
    (featherlessGetDynamicModels apiKeys settings serverEnv fetch = .ok l →
        ∀ mi ∈ l, mi.provider = "Featherless")
  ∧ (ollamaGetDynamicModels apiKeys settings serverEnv fetch = .ok l →
        ∀ mi ∈ l, mi.provider = "Ollama") := by
  constructor
  · intro h
    unfold featherlessGetDynamicModels at h
    split at h
    · split at h
      · cases h; simp
      · cases h; simp
      · cases h; simp
      · injection h with h2
        subst h2
        exact featherlessParseListing_provider _
    · cases h; simp
  · intro h
    unfold ollamaGetDynamicModels at h
    split at h
    · exact Except.noConfusion h
    · exact Except.noConfusion h
    · split at h
      · exact Except.noConfusion h
      · exact jsArrayMap_forall ollamaMapModel _ ollamaMapModel_provider _ _ h
      · exact Except.noConfusion h

/-- C7 witness: the model returned for the concrete Featherless listing
response of C5 carries provider "Featherless". -/
theorem c7_provider_stamped_witness :
    ModelInfo.provider
      { name := some (.str "m1"), label := some (.str "Model One (7B)"),
        provider := "Featherless", maxTokenAllowed := some (.num 8192) } = "Featherless" :=
  (c7_provider_stamped [("Featherless", "key")] none []
      (.response true (some (.obj [("models", .arr [.obj
        [("id", .str "m1"),
         ("details", .obj
           [("name", .str "Model One"), ("size", .str "7B"), ("context_length", .num 8192)])]])])))
      [{ name := some (.str "m1"), label := some (.str "Model One (7B)"),
         provider := "Featherless", maxTokenAllowed := some (.num 8192) }]).1 rfl _
    (List.mem_singleton.mpr rfl)

/-- C8: when no fetched model matches the current selection for the
selected provider and the fetched list contains a model of that provider,
the orchestrator selects the first such model and writes it to the
`selectedModel` cookie. -/
theorem c8_auto_select_first (providerName : String) (models : List ModelInfo)
    (st : ChatSelectionState)
    (habsent : ∀ m ∈ models, ¬(jsEq m.name st.model = true ∧ m.provider = providerName))
    (first : ModelInfo)
    (hfirst : models.find? (fun m => m.provider == providerName) = some first) :
    (fetchModelsUpdate providerName models st).model = first.name
  ∧ (fetchModelsUpdate providerName models st).selectedModelCookie =
      some (jsToString first.name) := by
  have hany : (models.any fun m => jsEq m.name st.model && m.provider == providerName) = false := by
    rw [List.any_eq_false]
    intro m hm
    have hm2 := habsent m hm
    simp only [Bool.and_eq_true, beq_iff_eq]
    tauto
  simp [fetchModelsUpdate, hany, hfirst]

/-- C8 witness: after switching to provider "Ollama" while "gpt-4" is
selected, the fetched Ollama list's first model "llama2" becomes the
selection and is written to the cookie. -/
theorem c8_auto_select_first_witness :
    (fetchModelsUpdate "Ollama"
        [{ name := some (.str "llama2"), label := some (.str "llama2"),
           provider := "Ollama", maxTokenAllowed := some (.num 4096) }]
        { model := some (.str "gpt-4"), selectedModelCookie := some "gpt-4" }).model
      = some (.str "llama2")
  ∧ (fetchModelsUpdate "Ollama"
        [{ name := some (.str "llama2"), label := some (.str "llama2"),
           provider := "Ollama", maxTokenAllowed := some (.num 4096) }]
        { model := some (.str "gpt-4"), selectedModelCookie := some "gpt-4" }).selectedModelCookie
      = some "llama2" :=
  c8_auto_select_first "Ollama"
    [{ name := some (.str "llama2"), label := some (.str "llama2"),
       provider := "Ollama", maxTokenAllowed := some (.num 4096) }]
    { model := some (.str "gpt-4"), selectedModelCookie := some "gpt-4" }
    (by decide)
    { name := some (.str "llama2"), label := some (.str "llama2"),
      provider := "Ollama", maxTokenAllowed := some (.num 4096) }
    rfl

/-- C1 (amended): Featherless's `getDynamicModels` never raises and
returns the empty sequence on every listing-path error — missing or
unresolvable credentials, network failure or timeout abort, non-success
HTTP status, malformed JSON body, and a body without a `models` array;
Ollama's `getDynamicModels`, by contrast, rethrows listing-path errors to
its caller. -/
theorem c1_listing_error_degradation (apiKeys : List (String × String))
    (settings : Option IProviderSetting) (serverEnv : List (String × String)) :
    (∀ fetch, ∃ l, featherlessGetDynamicModels apiKeys settings serverEnv fetch = .ok l)
  ∧ ((featherlessCreds apiKeys settings serverEnv).baseUrl = none ∨
        (featherlessCreds apiKeys settings serverEnv).apiKey = none →
        ∀ fetch, featherlessGetDynamicModels apiKeys settings serverEnv fetch = .ok [])
  ∧ featherlessGetDynamicModels apiKeys settings serverEnv .netError = .ok []
  ∧ (∀ body, featherlessGetDynamicModels apiKeys settings serverEnv (.response false body) = .ok [])
  ∧ featherlessGetDynamicModels apiKeys settings serverEnv (.response true none) = .ok []
  ∧ (∀ data, (∀ ms, jsGet (some data) "models" ≠ .ok (some (.arr ms))) →
        featherlessGetDynamicModels apiKeys settings serverEnv (.response true (some data)) = .ok [])
  ∧ (∀ env2, ollamaGetDynamicModels apiKeys settings env2 .netError = .error .netError)
  ∧ (∀ env2, ollamaGetDynamicModels apiKeys settings env2 (.response true none) =
        .error .parseError) := by
  refine ⟨?_, ?_, ?_, ?_, ?_, ?_, fun env2 => rfl, fun env2 => rfl⟩
  · intro fetch
    unfold featherlessGetDynamicModels
    repeat' split
    all_goals exact ⟨_, rfl⟩
  · intro hnone fetch
    unfold featherlessGetDynamicModels
    split
    · rename_i heq1 heq2
      rcases hnone with hn | hn
      · rw [hn] at heq1; exact Option.noConfusion heq1
      · rw [hn] at heq2; exact Option.noConfusion heq2
    · rfl
  · unfold featherlessGetDynamicModels
    split <;> rfl
  · intro body
    unfold featherlessGetDynamicModels
    split <;> rfl
  · unfold featherlessGetDynamicModels
    split <;> rfl
  · intro data hshape
    unfold featherlessGetDynamicModels
    split
    · show Except.ok (featherlessParseListing data) = Except.ok []
      have hempty : featherlessParseListing data = [] := by
        unfold featherlessParseListing
        split
        · rfl
        · rename_i ms heq
          exact absurd heq (hshape ms)
        · rfl
      rw [hempty]
    · rfl

/-- C1 witness: with no API key resolvable, a network failure still yields
the empty sequence from Featherless. -/
theorem c1_listing_error_degradation_witness :
    featherlessGetDynamicModels [] none [] FetchResult.netError = .ok [] :=
  (c1_listing_error_degradation [] none []).2.1 (Or.inr rfl) FetchResult.netError

/-- C2 (amended): Featherless's `getModelInstance` raises a configuration
error when the base URL or the API key cannot be resolved and returns a
bound handle otherwise; Ollama's `getModelInstance` never raises — it
always returns a handle built from whatever base URL resolves, without
consulting any API key. -/
theorem c2_instance_requires_credentials (apiKeys : List (String × String))
    (settings : Option IProviderSetting) (serverEnv : List (String × String))
    (model : String) :
    ((featherlessCreds apiKeys settings serverEnv).baseUrl = none ∨
        (featherlessCreds apiKeys settings serverEnv).apiKey = none →
        featherlessGetModelInstance apiKeys settings serverEnv model =
          .error (.configError "No base URL or API key configured for Featherless"))
  ∧ (∀ b k, (featherlessCreds apiKeys settings serverEnv).baseUrl = some b →
        (featherlessCreds apiKeys settings serverEnv).apiKey = some k →
        featherlessGetModelInstance apiKeys settings serverEnv model =
          .ok { baseUrl := b, apiKey := k, modelId := model })
  ∧ ollamaGetModelInstance apiKeys settings serverEnv model =
      .ok { modelId := model, numCtx := 4096,
            baseURL := jsStrOpt (ollamaInstanceCreds apiKeys settings serverEnv).baseUrl
              ++ "/api" } := by
  refine ⟨?_, ?_, rfl⟩
  · intro hnone
    unfold featherlessGetModelInstance
    split
    · rename_i heq1 heq2
      rcases hnone with hn | hn
      · rw [hn] at heq1; exact Option.noConfusion heq1
      · rw [hn] at heq2; exact Option.noConfusion heq2
    · rfl
  · intro b k hb hk
    unfold featherlessGetModelInstance
    rw [hb, hk]

/-- C2 witness: with no resolvable API key, Featherless's
`getModelInstance` raises its configuration error. -/
theorem c2_instance_requires_credentials_witness :
    featherlessGetModelInstance [] none [] "meta-llama/Meta-Llama-3.1-8B-Instruct" =
      .error (.configError "No base URL or API key configured for Featherless") :=
  (c2_instance_requires_credentials [] none [] "meta-llama/Meta-Llama-3.1-8B-Instruct").1
    (Or.inr rfl)

/-- C3 (amended): only Featherless's listing request is tied to a 5000 ms
abort-signal timer, and an aborted or failed request yields the empty
sequence there; Ollama's listing request has no timeout, and its failure
is rethrown. -/
theorem c3_listing_timeout (apiKeys : List (String × String))
    (settings : Option IProviderSetting) (serverEnv : List (String × String)) :
    (∀ b k, (featherlessCreds apiKeys settings serverEnv).baseUrl = some b →
        (featherlessCreds apiKeys settings serverEnv).apiKey = some k →
        featherlessDynamicModelsRequest apiKeys settings serverEnv =
          some { url := b ++ "/models", timeoutMs := some 5000,
                 headers := [("Accept", "application/json"),
                             ("Authorization", "Bearer " ++ k)] })
  ∧ featherlessGetDynamicModels apiKeys settings serverEnv .netError = .ok []
  ∧ (ollamaDynamicModelsRequest apiKeys settings serverEnv).timeoutMs = none
  ∧ ollamaGetDynamicModels apiKeys settings serverEnv .netError = .error .netError := by
  refine ⟨?_, ?_, rfl, rfl⟩
  · intro b k hb hk
    unfold featherlessDynamicModelsRequest
    rw [hb, hk]
  · unfold featherlessGetDynamicModels
    split <;> rfl

/-- C3 witness: with an API key in `apiKeys` and the default base URL,
the Featherless listing request carries the 5000 ms timeout. -/
theorem c3_listing_timeout_witness :
    featherlessDynamicModelsRequest [("Featherless", "secret")] none [] =
      some { url := "https://api.featherless.ai/v1/models", timeoutMs := some 5000,
             headers := [("Accept", "application/json"),
                         ("Authorization", "Bearer secret")] } :=
  (c3_listing_timeout [("Featherless", "secret")] none []).1
    "https://api.featherless.ai/v1" "secret" rfl rfl

/-- C4 (amended): Featherless sets `maxTokenAllowed` to exactly the
`context_length` field of the record's `details` — in particular it stays
`undefined` (no 4096 fallback) when the field is absent — while Ollama
always sets the constant 4096 regardless of what the backend reports. -/
theorem c4_max_token_source (idv : Json) (fields : List (String × Json)) :
    (∀ mi, featherlessMapModel (.obj [("id", idv), ("details", .obj fields)]) = .ok mi →
        mi.maxTokenAllowed = assocLookup fields "context_length")
  ∧ (∀ m mi, ollamaMapModel m = .ok mi → mi.maxTokenAllowed = some (.num 4096)) := by
  constructor
  · intro mi h
    have hv : featherlessMapModel (.obj [("id", idv), ("details", .obj fields)]) =
        .ok { name := some idv
              label := some (.str (jsToString (assocLookup fields "name") ++ " (" ++
                jsToString (assocLookup fields "size") ++ ")"))
              provider := "Featherless"
              maxTokenAllowed := assocLookup fields "context_length" } := rfl
    rw [hv] at h
    injection h with h2
    subst h2
    rfl
  · intro m mi h
    unfold ollamaMapModel at h
    split at h
    · exact Except.noConfusion h
    · injection h with h2
      subst h2
      rfl

/-- C4 witness: the mapped C5 record's `maxTokenAllowed` equals the
`context_length` reported in its `details`. -/
theorem c4_max_token_source_witness :
    ModelInfo.maxTokenAllowed
      { name := some (.str "m1"), label := some (.str "Model One (7B)"),
        provider := "Featherless", maxTokenAllowed := some (.num 8192) }
      = assocLookup
          [("name", Json.str "Model One"), ("size", Json.str "7B"),
           ("context_length", Json.num 8192)] "context_length" :=
  (c4_max_token_source (.str "m1")
      [("name", .str "Model One"), ("size", .str "7B"), ("context_length", .num 8192)]).1
    { name := some (.str "m1"), label := some (.str "Model One (7B)"),
      provider := "Featherless", maxTokenAllowed := some (.num 8192) } rfl
